import Mathlib

/-!
Verification development for the `framer-tryon-backend` repository: a shallow
embedding in Lean 4 of the try-on HTTP backend (the legacy inline server in
`server.js` and the provider-factory server in the second server snapshot,
together with the `gemini`, `huggingface` and `factory` provider modules),
plus theorems checking the natural-language specification against it.

Network interactions (`fetch`, gradio `Client.connect` / `client.predict`,
`response.json()`) are modelled by a `World` record supplying the outcome of
each call as an `Except`; a JavaScript `throw` is an `Except.error` carrying
the error message, and a `try/catch` block is an explicit match on it.
JavaScript strings are Lean `String`s (lists of characters); the JavaScript
string operations used by the code (`includes`, one-occurrence `replace`,
`split(",")`, `trim`, `endsWith`, `toLowerCase`) are defined below
character-by-character so that every predicate is executable.
-/

/-- Boolean test that `p` is a prefix of `s`, on character lists. -/
def listIsPrefixOf : List Char → List Char → Bool
  | [], _ => true
  | _ :: _, [] => false
  | p :: ps, c :: cs => p == c && listIsPrefixOf ps cs

/-- JavaScript `s.includes(p)`: `p` occurs as a contiguous substring of `s`. -/
def listContains : List Char → List Char → Bool
  | s, p =>
    if listIsPrefixOf p s then true
    else
      match s with
      | [] => false
      | _ :: cs => listContains cs p

/-- JavaScript `s.replace(p, r)` with a string pattern: replaces only the
first occurrence of `p` (if any), scanning left to right. -/
def listReplaceFirst : List Char → List Char → List Char → List Char
  | s, p, r =>
    if listIsPrefixOf p s then r ++ s.drop p.length
    else
      match s with
      | [] => []
      | c :: cs => c :: listReplaceFirst cs p r

/-- JavaScript `s.split(",")` on character lists: keeps empty pieces, and the
split of the empty string is one empty piece. -/
def splitCommaChars : List Char → List (List Char)
  | [] => [[]]
  | c :: cs =>
    if c == ',' then [] :: splitCommaChars cs
    else
      match splitCommaChars cs with
      | [] => [[c]]
      | h :: t => (c :: h) :: t

/-- JavaScript `s.includes(p)` on `String`. -/
def jsIncludes (s p : String) : Bool := listContains s.data p.data

/-- JavaScript `s.replace(p, r)` (first occurrence only) on `String`. -/
def jsReplaceFirst (s p r : String) : String := ⟨listReplaceFirst s.data p.data r.data⟩

/-- JavaScript `s.split(",")` on `String`. -/
def jsSplitComma (s : String) : List String := (splitCommaChars s.data).map (fun cs => ⟨cs⟩)

/-- JavaScript `s.trim()`: drops whitespace from both ends. -/
def jsTrim (s : String) : String :=
  ⟨((s.data.dropWhile Char.isWhitespace).reverse.dropWhile Char.isWhitespace).reverse⟩

/-- JavaScript `s.endsWith(p)`: `p` is a suffix of `s`, character-level. -/
def jsEndsWith (s p : String) : Bool := listIsPrefixOf p.data.reverse s.data.reverse

/-- ASCII lower-casing of one character, as JavaScript `toLowerCase` acts on
the ASCII range (the only range the provider names use). -/
def lowerChar (c : Char) : Char :=
  if 'A' ≤ c && c ≤ 'Z' then Char.ofNat (c.toNat + 32) else c

/-- JavaScript `s.toLowerCase()` restricted to ASCII. -/
def jsToLower (s : String) : String := ⟨s.data.map lowerChar⟩

/-- JavaScript truthiness of an optional string: `undefined`, `null` and the
empty string are falsy. -/
def jsTruthyOpt : Option String → Bool
  | none => false
  | some s => !(s == "")

/-- JavaScript `a || d` for an optional string `a` and default `d`. -/
def jsOrStr (a : Option String) (d : String) : String :=
  match a with
  | none => d
  | some s => if s == "" then d else s

/-- An image in transit: `{ data: base64 string, mimeType: string }`. -/
structure ImagePayload where
  data : String
  mimeType : String
deriving DecidableEq, Repr

/-- Configuration handed to a provider constructor. -/
structure ProviderConfig where
  apiKey : Option String := none
  model : Option String := none
  hfToken : Option String := none
deriving DecidableEq, Repr

/-- The `inline_data` leaf of a generation result. -/
structure InlineData where
  mime_type : String
  data : String
deriving DecidableEq, Repr

/-- One part of a candidate content block. -/
structure GenPart where
  text : Option String := none
  inline_data : Option InlineData := none
deriving DecidableEq, Repr

/-- A candidate content block. -/
structure GenContent where
  parts : List GenPart
deriving DecidableEq, Repr

/-- One candidate of a generation result. -/
structure GenCandidate where
  content : Option GenContent := none
  finishReason : Option String := none
deriving DecidableEq, Repr

/-- The normalized generation-result shape. -/
structure GenResult where
  candidates : List GenCandidate
deriving DecidableEq, Repr

/-- Validation outcome `{ valid, models?, error? }`. -/
structure ValidationResult where
  valid : Bool
  models : Option (List String) := none
  error : Option String := none
deriving DecidableEq, Repr

/-- Outcome of `fetch` on the product-image URL: `ok`, `statusText`, the body
as base64 (the code immediately converts `arrayBuffer` to base64) and the
`content-type` header (`none` when absent). -/
structure ProductResp where
  ok : Bool
  statusText : String := ""
  base64 : String := ""
  contentType : Option String := none
deriving DecidableEq, Repr

/-- Outcome of `fetch` on the Gemini `generateContent` endpoint: the response
flags, the body text read on the non-ok path, and the parsed JSON read on the
ok path (`response.json()` may itself throw). -/
structure GemHttpResp where
  ok : Bool
  status : Nat := 0
  text : String := ""
  json : Except String GenResult := .error "no json"
deriving Repr

/-- Parsed JSON of the Gemini `ListModels` response used by `validate()`:
an optional `models` array of named entries and an optional `error.message`. -/
structure GemModelsJson where
  models : Option (List String) := none
  errorMessage : Option String := none
deriving DecidableEq, Repr

/-- Outcome of `fetch` on the Gemini `ListModels` endpoint. -/
structure GemModelsResp where
  ok : Bool
  json : Except String GemModelsJson := .error "no json"
deriving Repr

/-- Outcomes of every external call a request may perform, fixed up front:
this models the network nondeterminism. Each field is the result the
corresponding call would produce if issued; `.error` is a thrown exception.
`hfPredict` yields `result.data` as a list of optional URL strings (the code
accepts either a plain URL string or an object carrying a `url` field; an
entry with no usable URL is `none`, and the empty string stands for a falsy
URL value as well). `hfImageFetch` yields the downloaded image body already
converted to base64, since the code never inspects anything else of it. -/
structure World where
  productFetch : Except String ProductResp := .error "no fetch"
  gemini : Except String GemHttpResp := .error "no fetch"
  geminiModels : Except String GemModelsResp := .error "no fetch"
  hfConnect : Except String Unit := .error "no connect"
  hfPredict : Except String (List (Option String)) := .error "no predict"
  hfImageFetch : Except String String := .error "no fetch"

/-- Gemini endpoint URL built by `GeminiProvider.generateTryOn` for a model. -/
def geminiGenUrl (model : String) : String :=
  "https://generativelanguage.googleapis.com/v1beta/models/" ++ model ++ ":generateContent"

/-- Billing-upsell quota message of `GeminiProvider` (likely free tier). -/
def geminiFreeTierMsg : String :=
  "Quota Exceeded. This model may require billing. Try \x27gemini-2.0-flash-exp\x27 for free access."

/-- Generic quota message of `GeminiProvider`. -/
def geminiBillingMsg : String :=
  "Quota Exceeded. Please check your Google AI Studio billing."

/-- JavaScript truthiness test `candidate.finishReason && finishReason !== "STOP"`. -/
def finishBlocked : Option String → Bool
  | none => false
  | some r => !(r == "") && !(r == "STOP")

/-- `GeminiProvider.generateTryOn` from `providers/gemini.js`: returns the
thrown message as `.error` or the raw upstream JSON as `.ok`, paired with the
list of URLs it fetched. The request payload (prompt text plus the two inline
images) is built and sent, but its content is not consumed by the model of
the upstream, so only the fetch outcome from `World` matters. -/
def geminiGenerateTryOn (cfg : ProviderConfig) (_userImage _productImage : ImagePayload)
    (w : World) : Except String GenResult × List String :=
  if jsTruthyOpt cfg.apiKey then
    let model := jsOrStr cfg.model "gemini-2.5-flash-image"
    let url := geminiGenUrl model
    match w.gemini with
    | .error e => (.error e, [url])
    | .ok resp =>
      if resp.ok then
        match resp.json with
        | .error e => (.error e, [url])
        | .ok data =>
          match data.candidates.head? with
          | none => (.error "Gemini returned no candidates.", [url])
          | some cand =>
            if finishBlocked cand.finishReason then
              (.error ("Blocked by Gemini. Reason: " ++ cand.finishReason.getD ""), [url])
            else
              match cand.content with
              | none => (.error "Gemini returned success but no image data.", [url])
              | some ct =>
                if ct.parts.isEmpty then
                  (.error "Gemini returned success but no image data.", [url])
                else (.ok data, [url])
      else
        if resp.status == 429 then
          let msg :=
            if jsIncludes model "flash" && !(jsIncludes model "exp") then geminiFreeTierMsg
            else geminiBillingMsg
          (.error ("429_QUOTA: " ++ msg), [url])
        else
          (.error ("Gemini API Error " ++ toString resp.status ++ ": " ++ resp.text), [url])
  else (.error "Gemini API Key is missing", [])

/-- `GeminiProvider.validate` from `providers/gemini.js`: total by
construction, every throw is caught into `{ valid := false, error }`. -/
def geminiValidate (cfg : ProviderConfig) (w : World) : ValidationResult :=
  if jsTruthyOpt cfg.apiKey then
    match w.geminiModels with
    | .error e => { valid := false, error := some e }
    | .ok resp =>
      match resp.json with
      | .error e => { valid := false, error := some e }
      | .ok data =>
        if resp.ok then
          { valid := true,
            models := some ((data.models.getD []).map (fun n => jsReplaceFirst n "models/" "")) }
        else { valid := false, error := some (jsOrStr data.errorMessage "Validation failed") }
  else { valid := false, error := some "No API Key" }

/-- Error rewrapping of the `catch` block of `HuggingFaceProvider.generateTryOn`. -/
def hfWrapError (m : String) : String :=
  if jsIncludes m "timeout" || jsIncludes m "504" then
    "Timeout: The public AI server is too busy. Please try again in 1 minute."
  else "HF Error: " ++ m

/-- Extraction `result.data[0]` then `output?.url || output` of the
HuggingFace provider, on the modelled predict output. -/
def hfImageUrl (outs : List (Option String)) : Option String :=
  match outs.head? with
  | none => none
  | some none => none
  | some (some u) => if u == "" then none else some u

/-- The fixed `GenerationResult` shape the HuggingFace provider returns on
success, wrapping the downloaded image as base64 PNG. -/
def hfShape (b64 : String) : GenResult :=
  { candidates :=
      [{ content :=
           some { parts := [{ text := none
                              inline_data := some { mime_type := "image/png", data := b64 } }] }
         finishReason := some "STOP" }] }

/-- `HuggingFaceProvider.generateTryOn` from `providers/huggingface.js`:
connect to the space, predict, extract the result URL, download it and wrap
it in the Gemini-compatible shape; any throw is rewrapped by the catch
block. The input buffers (base64 decoded after stripping a possible data-URL
header) are sent to predict but not consumed by the model of the upstream. -/
def hfGenerateTryOn (_cfg : ProviderConfig) (_userImage _productImage : ImagePayload)
    (w : World) : Except String GenResult × List String :=
  match w.hfConnect with
  | .error e => (.error (hfWrapError e), [])
  | .ok _ =>
    match w.hfPredict with
    | .error e => (.error (hfWrapError e), [])
    | .ok outs =>
      match hfImageUrl outs with
      | none => (.error (hfWrapError "Hugging Face returned success but no image URL found."), [])
      | some url =>
        match w.hfImageFetch with
        | .error e => (.error (hfWrapError e), [url])
        | .ok b64 => (.ok (hfShape b64), [url])

/-- `HuggingFaceProvider.validate` from `providers/huggingface.js`: a bare
connection test, every throw caught into `{ valid := false, error }`. -/
def hfValidate (_cfg : ProviderConfig) (w : World) : ValidationResult :=
  match w.hfConnect with
  | .ok _ => { valid := true, models := some ["IDM-VTON (Public Space)"] }
  | .error e => { valid := false, error := some e }

/-- A constructed provider instance. -/
inductive Provider where
  | gemini (cfg : ProviderConfig)
  | huggingface (cfg : ProviderConfig)
deriving DecidableEq, Repr

/-- `ProviderFactory.getProvider` from `providers/factory.js`: case-insensitive
dispatch on the provider name; unknown names throw an error naming the
supported set. -/
def getProvider (providerName : String) (cfg : ProviderConfig) : Except String Provider :=
  if jsToLower providerName == "gemini" then .ok (.gemini cfg)
  else if jsToLower providerName == "huggingface" then .ok (.huggingface cfg)
  else .error ("Unknown provider \x27" ++ providerName ++ "\x27. Supported: gemini, huggingface")

/-- Dynamic dispatch of `provider.generateTryOn`. -/
def runProvider : Provider → ImagePayload → ImagePayload → World →
    Except String GenResult × List String
  | .gemini cfg, u, p, w => geminiGenerateTryOn cfg u p w
  | .huggingface cfg, u, p, w => hfGenerateTryOn cfg u p w

/-- Result of `new URL(s)`: the fields the handler reads. -/
structure URLParts where
  protocol : String
  hostname : String
deriving DecidableEq, Repr

/-- A URL parser stands in for the platform built-in `new URL`; parse failure
(`none`) is the constructor throwing. -/
def URLParser := String → Option URLParts

/-- The fixed default SSRF allowlist of both servers. -/
def defaultTrusted : List String :=
  ["framerusercontent.com", "cdn.shopify.com", "shopify.com", "images.unsplash.com"]

/-- `process.env.TRUSTED_DOMAINS ? TRUSTED_DOMAINS.split(",") : []`: an unset
or empty variable contributes nothing, otherwise a comma split keeping empty
pieces. -/
def envTrustedList (td : Option String) : List String :=
  match td with
  | none => []
  | some s => if s == "" then [] else jsSplitComma s

/-- The effective allowlist: fixed defaults plus the environment additions. -/
def trustedDomains (td : Option String) : List String :=
  defaultTrusted ++ envTrustedList td

/-- The allowlist check of both handlers:
`trustedDomains.some(domain => url.hostname.endsWith(domain.trim()))`. -/
def isTrustedHost (td : Option String) (hostname : String) : Bool :=
  (trustedDomains td).any (fun domain => jsEndsWith hostname (jsTrim domain))

/-- The SSRF guard of both handlers as a boolean: `true` exactly when the
inner `try` block falls through without throwing — the URL parses, the scheme
is http or https, and the hostname passes the allowlist. -/
def ssrfCheck (parse : URLParser) (td : Option String) (productImageUrl : String) : Bool :=
  match parse productImageUrl with
  | none => false
  | some u =>
    (u.protocol == "http:" || u.protocol == "https:") && isTrustedHost td u.hostname

/-- An HTTP response of the generate-tryon endpoints: status plus either an
error body `{ error }` or a forwarded generation result. -/
structure HResp where
  status : Nat
  error : Option String := none
  result : Option GenResult := none
deriving DecidableEq, Repr

/-- A request body for the generate-tryon endpoints. -/
structure HReq where
  userImage : Option ImagePayload := none
  productImageUrl : Option String := none
deriving DecidableEq, Repr

/-- The 400 response for a missing field. -/
def missingDataResp : HResp := { status := 400, error := some "Missing userImage or productImageUrl" }

/-- The generic 400 response of the SSRF guard. -/
def untrustedResp : HResp := { status := 400, error := some "Invalid or untrusted product image URL." }

/-- The catch block of the factory server handler: an error message carrying
the `429_QUOTA` sentinel is remapped to 429 with the sentinel-and-space
occurrence removed; everything else is a 500. -/
def handleError (msg : String) : HResp :=
  if jsIncludes msg "429_QUOTA" then
    { status := 429, error := some (jsReplaceFirst msg "429_QUOTA: " "") }
  else { status := 500, error := some msg }

/-- The runtime configuration singleton of the factory server. -/
structure RuntimeConfig where
  providerName : String
  apiKey : Option String
  model : String
deriving DecidableEq, Repr

/-- The part of the factory handler after the SSRF guard passed: fetch the
product image, build the provider from the runtime config and delegate;
thrown errors reach the catch block `handleError`. Returns the response and
the URLs fetched by the provider (the product URL itself is prepended by the
caller, since its fetch is issued unconditionally at this point). -/
def factoryAfterGuard (cfg : RuntimeConfig) (ui : ImagePayload) (w : World) :
    HResp × List String :=
  match w.productFetch with
  | .error e => (handleError e, [])
  | .ok presp =>
    if presp.ok then
      let productImg : ImagePayload :=
        { data := presp.base64, mimeType := jsOrStr presp.contentType "image/jpeg" }
      match getProvider cfg.providerName { apiKey := cfg.apiKey, model := some cfg.model } with
      | .error e => (handleError e, [])
      | .ok p =>
        match runProvider p ui productImg w with
        | (.error e, t) => (handleError e, t)
        | (.ok r, t) => ({ status := 200, result := some r }, t)
    else (handleError ("Failed to fetch product image: " ++ presp.statusText), [])

/-- The `POST /api/generate-tryon` handler of the factory server (the second
server snapshot): field presence check, SSRF guard, product fetch, provider
dispatch, with `handleError` as the catch block. Returns the response and
the list of URLs fetched, request URL first. -/
def factoryHandler (parse : URLParser) (cfg : RuntimeConfig) (td : Option String)
    (w : World) (req : HReq) : HResp × List String :=
  match req.userImage, req.productImageUrl with
  | some ui, some purl =>
    if purl == "" then (missingDataResp, [])
    else if ssrfCheck parse td purl then
      ((factoryAfterGuard cfg ui w).1, purl :: (factoryAfterGuard cfg ui w).2)
    else (untrustedResp, [])
  | _, _ => (missingDataResp, [])

/-- The catch block of the legacy server handler: messages mentioning `429`
or `Quota` become a 429 with a fixed message, anything else a 500. -/
def legacyCatch (msg : String) : HResp :=
  if jsIncludes msg "429" || jsIncludes msg "Quota" then
    { status := 429,
      error := some "Quota Exceeded. Please enable billing to use the Virtual Try-On feature." }
  else { status := 500, error := some msg }

/-- The fixed 429 message of the legacy handler for an upstream 429. -/
def legacy429Msg : String :=
  "Quota Exceeded. The \x27Virtual Try-On\x27 feature (Image-to-Image) requires the \x27gemini-2.5-flash-image\x27 model, which is currently not available on the Gemini API Free Tier. Please enable billing in Google AI Studio to use this feature."

/-- The part of the legacy handler after the SSRF guard passed: fetch the
product image, call the fixed Gemini endpoint inline, and map the upstream
response; thrown errors reach the catch block `legacyCatch`. -/
def legacyAfterGuard (apiKey : Option String) (w : World) : HResp × List String :=
  match w.productFetch with
  | .error e => (legacyCatch e, [])
  | .ok presp =>
    if presp.ok then
      if jsTruthyOpt apiKey then
        let url := geminiGenUrl "gemini-2.5-flash-image"
        match w.gemini with
        | .error e => (legacyCatch e, [url])
        | .ok resp =>
          if resp.ok then
            match resp.json with
            | .error e => (legacyCatch e, [url])
            | .ok data =>
              match data.candidates.head? with
              | none =>
                (legacyCatch "Gemini returned no candidates. The AI might be overloaded.", [url])
              | some cand =>
                if finishBlocked cand.finishReason then
                  ({ status := 400,
                     error := some ("AI Generation Failed. Reason: " ++
                       cand.finishReason.getD "" ++ ". Try a different photo.") }, [url])
                else
                  match cand.content with
                  | none =>
                    ({ status := 400,
                       error := some "The AI could not generate an image for this photo. Please try a different one." }, [url])
                  | some ct =>
                    if ct.parts.isEmpty then
                      ({ status := 400,
                         error := some "The AI could not generate an image for this photo. Please try a different one." }, [url])
                    else ({ status := 200, result := some data }, [url])
          else
            if resp.status == 429 then
              ({ status := 429, error := some legacy429Msg }, [url])
            else
              (legacyCatch ("Gemini API error: " ++ toString resp.status ++ " - " ++ resp.text),
               [url])
      else (legacyCatch "Server Misconfiguration: GEMINI_API_KEY is missing", [])
    else (legacyCatch ("Failed to fetch product image: " ++ presp.statusText), [])

/-- The `POST /api/generate-tryon` handler of the legacy server (`server.js`):
same field and SSRF checks, inline Gemini call against the fixed model, with
`legacyCatch` as the catch block. -/
def legacyHandler (parse : URLParser) (apiKey : Option String) (td : Option String)
    (w : World) (req : HReq) : HResp × List String :=
  match req.userImage, req.productImageUrl with
  | some _ui, some purl =>
    if purl == "" then (missingDataResp, [])
    else if ssrfCheck parse td purl then
      ((legacyAfterGuard apiKey w).1, purl :: (legacyAfterGuard apiKey w).2)
    else (untrustedResp, [])
  | _, _ => (missingDataResp, [])

/-- A body of `POST /api/admin/config`: an optional value per updatable field. -/
structure ConfigBody where
  apiKey : Option String := none
  model : Option String := none
  provider : Option String := none
deriving DecidableEq, Repr

/-- The runtime-config mutation of the factory server admin endpoint: each
field is overwritten only when the supplied value is truthy (present and
non-empty). -/
def adminConfigUpdate (b : ConfigBody) (c : RuntimeConfig) : RuntimeConfig :=
  let c1 := if jsTruthyOpt b.apiKey then { c with apiKey := b.apiKey } else c
  let c2 := if jsTruthyOpt b.model then { c1 with model := b.model.getD c1.model } else c1
  if jsTruthyOpt b.provider then { c2 with providerName := b.provider.getD c2.providerName }
  else c2

/-- Mutation the specification sentence describes: update exactly the fields
supplied in the body, leave every field not supplied unchanged.
Modelled from the spec: the claim wording, for comparison with
`adminConfigUpdate`. -/
def adminConfigUpdateClaimed (b : ConfigBody) (c : RuntimeConfig) : RuntimeConfig :=
  { providerName := b.provider.getD c.providerName
    apiKey := match b.apiKey with | some k => some k | none => c.apiKey
    model := b.model.getD c.model }

/-- The response body of `POST /api/admin/config`. -/
structure ConfigResponse where
  success : Bool
  message : String
  currentProvider : String
  currentModel : String
deriving DecidableEq, Repr

/-- The `POST /api/admin/config` handler of the factory server: mutate the
runtime config and report the effective provider and model. -/
def adminConfigHandler (b : ConfigBody) (c : RuntimeConfig) : ConfigResponse × RuntimeConfig :=
  let c2 := adminConfigUpdate b c
  ({ success := true, message := "Configuration updated.",
     currentProvider := c2.providerName, currentModel := c2.model }, c2)


/-! Helper lemmas about the string model. -/

theorem listIsPrefixOf_self_append (p r : List Char) : listIsPrefixOf p (p ++ r) = true := by
  induction p with
  | nil => rfl
  | cons c cs ih => simp [listIsPrefixOf, ih]

theorem listIsPrefixOf_refl (p : List Char) : listIsPrefixOf p p = true := by
  have h := listIsPrefixOf_self_append p []
  simpa using h

theorem listContains_of_isPrefixOf {s p : List Char} (h : listIsPrefixOf p s = true) :
    listContains s p = true := by
  unfold listContains
  simp [h]

theorem listContains_append_right {b p : List Char} (a : List Char)
    (h : listContains b p = true) : listContains (a ++ b) p = true := by
  induction a with
  | nil => simpa using h
  | cons c cs ih =>
    unfold listContains
    by_cases hp : listIsPrefixOf p (c :: (cs ++ b)) = true
    · simp [hp]
    · simp only [List.cons_append]
      rw [if_neg hp]
      exact ih

theorem listReplaceFirst_of_isPrefixOf {s p : List Char} (h : listIsPrefixOf p s = true) :
    listReplaceFirst s p [] = s.drop p.length := by
  unfold listReplaceFirst
  simp [h]

theorem string_data_append (s t : String) : (s ++ t).data = s.data ++ t.data := rfl

theorem string_mk_data (s : String) : String.mk s.data = s := rfl

theorem jsIncludes_append_right (a : String) {b p : String} (h : jsIncludes b p = true) :
    jsIncludes (a ++ b) p = true := by
  unfold jsIncludes at *
  rw [string_data_append]
  exact listContains_append_right a.data h

theorem jsIncludes_refl (s : String) : jsIncludes s s = true :=
  listContains_of_isPrefixOf (listIsPrefixOf_refl s.data)

theorem listIsPrefixOf_append_right {p s : List Char} (t : List Char)
    (h : listIsPrefixOf p s = true) : listIsPrefixOf p (s ++ t) = true := by
  induction p generalizing s with
  | nil => rfl
  | cons c cs ih =>
    cases s with
    | nil => simp [listIsPrefixOf] at h
    | cons d ds =>
      simp only [listIsPrefixOf, Bool.and_eq_true] at h
      simp only [List.cons_append, listIsPrefixOf, Bool.and_eq_true]
      exact ⟨h.1, ih h.2⟩

theorem listContains_append_left {a p : List Char} (b : List Char)
    (h : listContains a p = true) : listContains (a ++ b) p = true := by
  induction a with
  | nil =>
    unfold listContains at h
    cases p with
    | nil => exact listContains_of_isPrefixOf rfl
    | cons c cs => simp [listIsPrefixOf] at h
  | cons c cs ih =>
    by_cases hp : listIsPrefixOf p (c :: cs) = true
    · exact listContains_of_isPrefixOf (listIsPrefixOf_append_right b hp)
    · unfold listContains at h
      rw [if_neg hp] at h
      have h3 : listContains cs p = true := h
      unfold listContains
      simp only [List.cons_append]
      by_cases h2 : listIsPrefixOf p (c :: (cs ++ b)) = true
      · rw [if_pos h2]
      · rw [if_neg h2]
        exact ih h3

theorem jsIncludes_append_of_left {a p : String} (b : String) (h : jsIncludes a p = true) :
    jsIncludes (a ++ b) p = true := by
  unfold jsIncludes at *
  rw [string_data_append]
  exact listContains_append_left b.data h

/-! Lemmas about the SSRF guard. -/

theorem jsEndsWith_empty (h : String) : jsEndsWith h "" = true := rfl

theorem ssrfCheck_false_of_untrusted {parse : URLParser} {td : Option String}
    {purl : String} {u : URLParts} (hparse : parse purl = some u)
    (hall : ∀ d ∈ trustedDomains td, jsEndsWith u.hostname (jsTrim d) = false) :
    ssrfCheck parse td purl = false := by
  unfold ssrfCheck
  rw [hparse]
  have htr : isTrustedHost td u.hostname = false := by
    unfold isTrustedHost
    rw [List.any_eq_false]
    intro d hd
    simp [hall d hd]
  simp [htr]

theorem isTrustedHost_true_of_blank_entry {s entry : String}
    (hs : s ≠ "") (hmem : entry ∈ jsSplitComma s) (hentry : jsTrim entry = "") :
    ∀ h : String, isTrustedHost (some s) h = true := by
  intro h
  unfold isTrustedHost
  rw [List.any_eq_true]
  refine ⟨entry, ?_, ?_⟩
  · have henv : envTrustedList (some s) = jsSplitComma s := by
      unfold envTrustedList
      simp [hs]
    unfold trustedDomains
    rw [henv]
    exact List.mem_append_right _ hmem
  · rw [hentry]
    exact jsEndsWith_empty h

theorem ssrfCheck_true_of_trusted {parse : URLParser} {td : Option String}
    {purl : String} {u : URLParts} (hparse : parse purl = some u)
    (hproto : u.protocol = "http:" ∨ u.protocol = "https:")
    (htr : isTrustedHost td u.hostname = true) :
    ssrfCheck parse td purl = true := by
  unfold ssrfCheck
  rw [hparse]
  rcases hproto with h | h <;> simp [h, htr]

/-- Claim C1: a request whose `productImageUrl` parses as an http/https URL
with a hostname that ends with no (trimmed) entry of the allowlist — the
fixed default set unioned with the `TRUSTED_DOMAINS` entries — is answered
400 with the generic untrusted-URL message by both the factory handler and
the legacy handler, and the list of outbound fetches is empty, so in
particular that URL is never fetched. -/
theorem c1_untrusted_url_rejected_without_fetch
    (parse : URLParser) (td : Option String) (cfg : RuntimeConfig) (akLegacy : Option String)
    (w : World) (ui : ImagePayload) (purl : String) (u : URLParts)
    (hpurl : purl ≠ "")
    (hparse : parse purl = some u)
    (_hproto : u.protocol = "http:" ∨ u.protocol = "https:")
    (huntrusted : ∀ d ∈ trustedDomains td, jsEndsWith u.hostname (jsTrim d) = false) :
    factoryHandler parse cfg td w { userImage := some ui, productImageUrl := some purl }
      = (untrustedResp, [])
    ∧ legacyHandler parse akLegacy td w { userImage := some ui, productImageUrl := some purl }
      = (untrustedResp, []) := by
  have hck : ssrfCheck parse td purl = false := ssrfCheck_false_of_untrusted hparse huntrusted
  constructor
  · unfold factoryHandler
    simp [hpurl, hck]
  · unfold legacyHandler
    simp [hpurl, hck]

/-- Parser used by concrete witnesses: recognizes the two URLs they mention. -/
def parseFixed : URLParser := fun s =>
  if s == "http://evil.example/x" then some { protocol := "http:", hostname := "evil.example" }
  else if s == "https://evilshopify.com/shirt.png" then
    some { protocol := "https:", hostname := "evilshopify.com" }
  else if s == "https://images.unsplash.com/shirt.png" then
    some { protocol := "https:", hostname := "images.unsplash.com" }
  else none

/-- Runtime config used by concrete witnesses. -/
def cfgW : RuntimeConfig :=
  { providerName := "gemini", apiKey := some "key", model := "gemini-2.5-flash-image" }

/-- User image used by concrete witnesses. -/
def uiW : ImagePayload := { data := "QUJD", mimeType := "image/jpeg" }

theorem c1_untrusted_url_rejected_without_fetch_witness :
    ("http://evil.example/x" ≠ ""
      ∧ parseFixed "http://evil.example/x"
          = some { protocol := "http:", hostname := "evil.example" }
      ∧ (∀ d ∈ trustedDomains none, jsEndsWith "evil.example" (jsTrim d) = false))
    ∧ factoryHandler parseFixed cfgW none {} { userImage := some uiW, productImageUrl := some "http://evil.example/x" }
        = (untrustedResp, [])
    ∧ legacyHandler parseFixed (some "key") none {} { userImage := some uiW, productImageUrl := some "http://evil.example/x" }
        = (untrustedResp, []) := by
  refine ⟨⟨by decide, by decide, by decide⟩, ?_⟩
  exact c1_untrusted_url_rejected_without_fetch parseFixed none cfgW (some "key") {} uiW
    "http://evil.example/x" { protocol := "http:", hostname := "evil.example" }
    (by decide) (by decide) (Or.inl rfl) (by decide)

/-- Claim C9: if the `TRUSTED_DOMAINS` environment variable holds an entry
that trims to the empty string, every hostname passes the allowlist check
(every string ends with the empty string), and a well-formed request with any
syntactically valid http/https `productImageUrl` is accepted and the URL is
fetched, by both handlers. -/
theorem c9_blank_allowlist_entry_accepts_everything
    (parse : URLParser) (s entry : String) (cfg : RuntimeConfig) (akLegacy : Option String)
    (w : World) (ui : ImagePayload) (purl : String) (u : URLParts)
    (hs : s ≠ "")
    (hmem : entry ∈ jsSplitComma s)
    (hentry : jsTrim entry = "")
    (hpurl : purl ≠ "")
    (hparse : parse purl = some u)
    (hproto : u.protocol = "http:" ∨ u.protocol = "https:") :
    (∀ h : String, isTrustedHost (some s) h = true)
    ∧ purl ∈ (factoryHandler parse cfg (some s) w
        { userImage := some ui, productImageUrl := some purl }).2
    ∧ purl ∈ (legacyHandler parse akLegacy (some s) w
        { userImage := some ui, productImageUrl := some purl }).2 := by
  have htr := isTrustedHost_true_of_blank_entry hs hmem hentry
  have hck : ssrfCheck parse (some s) purl = true :=
    ssrfCheck_true_of_trusted hparse hproto (htr u.hostname)
  refine ⟨htr, ?_, ?_⟩
  · unfold factoryHandler
    simp [hpurl, hck]
  · unfold legacyHandler
    simp [hpurl, hck]

theorem c9_blank_allowlist_entry_accepts_everything_witness :
    ("x,"≠ "" ∧ "" ∈ jsSplitComma "x," ∧ jsTrim "" = ""
      ∧ "http://evil.example/x" ≠ ""
      ∧ parseFixed "http://evil.example/x"
          = some { protocol := "http:", hostname := "evil.example" })
    ∧ (∀ h : String, isTrustedHost (some "x,") h = true)
    ∧ "http://evil.example/x" ∈ (factoryHandler parseFixed cfgW (some "x,") {}
        { userImage := some uiW, productImageUrl := some "http://evil.example/x" }).2
    ∧ "http://evil.example/x" ∈ (legacyHandler parseFixed (some "key") (some "x,") {}
        { userImage := some uiW, productImageUrl := some "http://evil.example/x" }).2 := by
  refine ⟨⟨by decide, by decide, by decide, by decide, by decide⟩, ?_⟩
  exact c9_blank_allowlist_entry_accepts_everything parseFixed "x," "" cfgW (some "key") {} uiW
    "http://evil.example/x" { protocol := "http:", hostname := "evil.example" }
    (by decide) (by decide) (by decide) (by decide) (by decide) (Or.inl rfl)

/-- Claim C10: the allowlist comparison is a raw character-level suffix test:
the hostname `evilshopify.com` is neither equal to any default allowlist
entry nor a dot-separated subdomain of one, yet it passes the check, and a
request for a URL with that hostname reaches the product fetch in both
handlers. -/
theorem c10_raw_suffix_match_accepts_lookalike_host :
    isTrustedHost none "evilshopify.com" = true
    ∧ (∀ d ∈ trustedDomains none,
        "evilshopify.com" ≠ d ∧ jsEndsWith "evilshopify.com" ("." ++ d) = false)
    ∧ "https://evilshopify.com/shirt.png" ∈ (factoryHandler parseFixed cfgW none {}
        { userImage := some uiW,
          productImageUrl := some "https://evilshopify.com/shirt.png" }).2
    ∧ "https://evilshopify.com/shirt.png" ∈ (legacyHandler parseFixed (some "key") none {}
        { userImage := some uiW,
          productImageUrl := some "https://evilshopify.com/shirt.png" }).2 := by
  refine ⟨by decide, by decide, ?_, ?_⟩ <;> decide

/-! Lemmas about the quota sentinel. -/

theorem jsIncludes_sentinel (rest : String) :
    jsIncludes ("429_QUOTA: " ++ rest) "429_QUOTA" = true := by
  unfold jsIncludes
  rw [string_data_append]
  apply listContains_of_isPrefixOf
  have h : ("429_QUOTA: " : String).data = ("429_QUOTA" : String).data ++ (": " : String).data :=
    rfl
  rw [h, List.append_assoc]
  exact listIsPrefixOf_self_append _ _

theorem jsReplaceFirst_sentinel (rest : String) :
    jsReplaceFirst ("429_QUOTA: " ++ rest) "429_QUOTA: " "" = rest := by
  unfold jsReplaceFirst
  rw [string_data_append]
  have hpre : listIsPrefixOf ("429_QUOTA: " : String).data
      (("429_QUOTA: " : String).data ++ rest.data) = true :=
    listIsPrefixOf_self_append _ _
  have hempty : ("" : String).data = [] := rfl
  rw [hempty, listReplaceFirst_of_isPrefixOf hpre, List.drop_left]

theorem handleError_sentinel (rest : String) :
    handleError ("429_QUOTA: " ++ rest) = { status := 429, error := some rest } := by
  unfold handleError
  rw [if_pos (jsIncludes_sentinel rest), jsReplaceFirst_sentinel rest]

/-- Claim C3: an error thrown during generation whose message carries the
`429_QUOTA: ` sentinel prefix is answered by the factory orchestration with
HTTP 429 — not a generic 500 — and a body whose error field is the message
with the prefix removed; stated through the handler for a product fetch that
throws such a message, together with the catch-block mapping itself for an
arbitrary sentinel message. -/
theorem c3_sentinel_prefix_maps_to_429
    (parse : URLParser) (td : Option String) (cfg : RuntimeConfig) (w : World)
    (ui : ImagePayload) (purl rest : String) (u : URLParts)
    (hpurl : purl ≠ "")
    (hparse : parse purl = some u)
    (hproto : u.protocol = "http:" ∨ u.protocol = "https:")
    (htr : isTrustedHost td u.hostname = true)
    (hw : w.productFetch = .error ("429_QUOTA: " ++ rest)) :
    factoryHandler parse cfg td w { userImage := some ui, productImageUrl := some purl }
      = ({ status := 429, error := some rest }, [purl])
    ∧ handleError ("429_QUOTA: " ++ rest) = { status := 429, error := some rest } := by
  have hck : ssrfCheck parse td purl = true := ssrfCheck_true_of_trusted hparse hproto htr
  constructor
  · unfold factoryHandler
    simp only [hpurl, hck]
    unfold factoryAfterGuard
    rw [hw]
    simp [handleError_sentinel rest, hpurl]
  · exact handleError_sentinel rest

/-- World used by the C3 witness: the product fetch throws a sentinel error. -/
def wSentinel : World := { productFetch := .error "429_QUOTA: Quota Exceeded. Demo." }

theorem c3_sentinel_prefix_maps_to_429_witness :
    ("https://evilshopify.com/shirt.png" ≠ ""
      ∧ parseFixed "https://evilshopify.com/shirt.png"
          = some { protocol := "https:", hostname := "evilshopify.com" }
      ∧ isTrustedHost none "evilshopify.com" = true
      ∧ wSentinel.productFetch = .error ("429_QUOTA: " ++ "Quota Exceeded. Demo."))
    ∧ factoryHandler parseFixed cfgW none wSentinel
        { userImage := some uiW, productImageUrl := some "https://evilshopify.com/shirt.png" }
      = ({ status := 429, error := some "Quota Exceeded. Demo." },
         ["https://evilshopify.com/shirt.png"])
    ∧ handleError ("429_QUOTA: " ++ "Quota Exceeded. Demo.")
      = { status := 429, error := some "Quota Exceeded. Demo." } := by
  refine ⟨⟨by decide, by decide, by decide, rfl⟩, ?_, ?_⟩
  · exact (c3_sentinel_prefix_maps_to_429 parseFixed none cfgW wSentinel uiW
      "https://evilshopify.com/shirt.png" "Quota Exceeded. Demo."
      { protocol := "https:", hostname := "evilshopify.com" }
      (by decide) (by decide) (Or.inr rfl) (by decide) rfl).1
  · exact (c3_sentinel_prefix_maps_to_429 parseFixed none cfgW wSentinel uiW
      "https://evilshopify.com/shirt.png" "Quota Exceeded. Demo."
      { protocol := "https:", hostname := "evilshopify.com" }
      (by decide) (by decide) (Or.inr rfl) (by decide) rfl).2

/-- Claim C4: when the Gemini upstream answers HTTP 429, the provider throws
the sentinel-prefixed message selected by the model-name heuristic on the
effective model string (the configured model, or the default when none is
configured): the billing-upsell message when it contains "flash" and not
"exp", otherwise the generic quota message. -/
theorem c4_gemini_429_message_heuristic
    (cfg : ProviderConfig) (ak : String) (u p : ImagePayload) (w : World) (resp : GemHttpResp)
    (hak : cfg.apiKey = some ak) (hak2 : ak ≠ "")
    (hw : w.gemini = .ok resp) (hok : resp.ok = false) (hst : resp.status = 429) :
    geminiGenerateTryOn cfg u p w
      = (.error ("429_QUOTA: " ++
          (if jsIncludes (jsOrStr cfg.model "gemini-2.5-flash-image") "flash"
              && !(jsIncludes (jsOrStr cfg.model "gemini-2.5-flash-image") "exp")
            then geminiFreeTierMsg else geminiBillingMsg)),
         [geminiGenUrl (jsOrStr cfg.model "gemini-2.5-flash-image")]) := by
  have htru : jsTruthyOpt cfg.apiKey = true := by
    rw [hak]
    simp [jsTruthyOpt, hak2]
  unfold geminiGenerateTryOn
  rw [htru, hw]
  simp [hok, hst]

/-- World used by the C4 witness: Gemini answers a plain 429. -/
def wGem429 : World := { gemini := .ok { ok := false, status := 429 } }

theorem c4_gemini_429_message_heuristic_witness :
    ((⟨some "k", none, none⟩ : ProviderConfig).apiKey = some "k" ∧ "k" ≠ ""
      ∧ (⟨false, 429, "", .error "no json"⟩ : GemHttpResp).ok = false
      ∧ (⟨false, 429, "", .error "no json"⟩ : GemHttpResp).status = 429)
    ∧ geminiGenerateTryOn ⟨some "k", none, none⟩ uiW uiW wGem429
      = (.error ("429_QUOTA: " ++
          (if jsIncludes (jsOrStr (none : Option String) "gemini-2.5-flash-image") "flash"
              && !(jsIncludes (jsOrStr (none : Option String) "gemini-2.5-flash-image") "exp")
            then geminiFreeTierMsg else geminiBillingMsg)),
         [geminiGenUrl (jsOrStr (none : Option String) "gemini-2.5-flash-image")])
    ∧ (if jsIncludes (jsOrStr (none : Option String) "gemini-2.5-flash-image") "flash"
          && !(jsIncludes (jsOrStr (none : Option String) "gemini-2.5-flash-image") "exp")
        then geminiFreeTierMsg else geminiBillingMsg) = geminiFreeTierMsg := by
  refine ⟨⟨rfl, by decide, rfl, rfl⟩, ?_, by decide⟩
  exact c4_gemini_429_message_heuristic ⟨some "k", none, none⟩ "k" uiW uiW wGem429
    ⟨false, 429, "", .error "no json"⟩ rfl (by decide) rfl rfl rfl

/-- Claim C5: the provider factory is a case-insensitive mapping on the
provider name: lowercasing to "gemini" yields a Gemini instance, to
"huggingface" a HuggingFace instance, and anything else throws an error
that names the supported set. -/
theorem c5_factory_case_insensitive_mapping (name : String) (cfg : ProviderConfig) :
    (jsToLower name = "gemini" → getProvider name cfg = .ok (.gemini cfg))
    ∧ (jsToLower name = "huggingface" → getProvider name cfg = .ok (.huggingface cfg))
    ∧ (jsToLower name ≠ "gemini" → jsToLower name ≠ "huggingface" →
        getProvider name cfg
          = .error ("Unknown provider \x27" ++ name ++ "\x27. Supported: gemini, huggingface")
        ∧ jsIncludes ("Unknown provider \x27" ++ name ++ "\x27. Supported: gemini, huggingface")
            "Supported: gemini, huggingface" = true) := by
  refine ⟨?_, ?_, ?_⟩
  · intro h
    unfold getProvider
    simp [h]
  · intro h
    unfold getProvider
    simp [h]
  · intro h1 h2
    constructor
    · unfold getProvider
      simp [h1, h2]
    · exact jsIncludes_append_right _ (by decide)

theorem c5_factory_case_insensitive_mapping_witness :
    (jsToLower "GeMiNi" = "gemini" ∧ jsToLower "HuggingFace" = "huggingface"
      ∧ jsToLower "openai" ≠ "gemini" ∧ jsToLower "openai" ≠ "huggingface")
    ∧ getProvider "GeMiNi" {} = .ok (.gemini {})
    ∧ getProvider "HuggingFace" {} = .ok (.huggingface {})
    ∧ getProvider "openai" {}
        = .error ("Unknown provider \x27" ++ "openai" ++ "\x27. Supported: gemini, huggingface")
    ∧ jsIncludes ("Unknown provider \x27" ++ "openai" ++ "\x27. Supported: gemini, huggingface")
        "Supported: gemini, huggingface" = true := by
  refine ⟨⟨by decide, by decide, by decide, by decide⟩, ?_, ?_, ?_, ?_⟩
  · exact (c5_factory_case_insensitive_mapping "GeMiNi" {}).1 (by decide)
  · exact (c5_factory_case_insensitive_mapping "HuggingFace" {}).2.1 (by decide)
  · exact ((c5_factory_case_insensitive_mapping "openai" {}).2.2 (by decide) (by decide)).1
  · exact ((c5_factory_case_insensitive_mapping "openai" {}).2.2 (by decide) (by decide)).2

/-- The structural shape of a successful Gemini result as the specification
words it: `candidates[0].content.parts[0].inline_data` present and
`finishReason` equal to "STOP".
Modelled from the spec: the shape predicate the claim compares against. -/
def hasGenShape (r : GenResult) : Bool :=
  match r.candidates.head? with
  | none => false
  | some c =>
    (match c.content with
     | none => false
     | some ct =>
       match ct.parts.head? with
       | none => false
       | some pt => pt.inline_data.isSome) && (c.finishReason == some "STOP")

/-- Claim C6: whenever the HuggingFace provider succeeds, its value is the
fixed Gemini-compatible record — one candidate whose first part carries
`inline_data` with `mime_type` "image/png" and the downloaded base64 data,
and whose `finishReason` is "STOP" — so it satisfies the successful-Gemini
structural shape. -/
theorem c6_hf_success_matches_gemini_shape
    (cfg : ProviderConfig) (u p : ImagePayload) (w : World) (r : GenResult)
    (h : (hfGenerateTryOn cfg u p w).1 = .ok r) :
    (∃ b64, r = hfShape b64) ∧ hasGenShape r = true := by
  unfold hfGenerateTryOn at h
  split at h
  · simp at h
  · split at h
    · simp at h
    · split at h
      · simp at h
      · split at h
        · simp at h
        · rename_i b64 heq
          simp at h
          subst h
          exact ⟨⟨b64, rfl⟩, rfl⟩

/-- World used by the C6 witness: connect, predict and download all succeed. -/
def wHFok : World :=
  { hfConnect := .ok (), hfPredict := .ok [some "https://hf.example/out.png"],
    hfImageFetch := .ok "SU1H" }

theorem c6_hf_success_matches_gemini_shape_witness :
    (hfGenerateTryOn {} uiW uiW wHFok).1 = .ok (hfShape "SU1H")
    ∧ (∃ b64, hfShape "SU1H" = hfShape b64) ∧ hasGenShape (hfShape "SU1H") = true := by
  refine ⟨rfl, ?_⟩
  exact c6_hf_success_matches_gemini_shape {} uiW uiW wHFok (hfShape "SU1H") rfl

/-- Claim C7: for both concrete providers and every outcome of the network
calls, `validate` is total (never throws) and returns either
`{ valid := true, models := ... }` on success or `{ valid := false, error := ... }`
on failure. -/
theorem c7_validate_total_and_shaped (cfg : ProviderConfig) (w : World) :
    ((geminiValidate cfg w).valid = true ∧ (geminiValidate cfg w).models.isSome = true
        ∧ (geminiValidate cfg w).error = none
      ∨ (geminiValidate cfg w).valid = false ∧ (geminiValidate cfg w).error.isSome = true
        ∧ (geminiValidate cfg w).models = none)
    ∧ ((hfValidate cfg w).valid = true ∧ (hfValidate cfg w).models.isSome = true
        ∧ (hfValidate cfg w).error = none
      ∨ (hfValidate cfg w).valid = false ∧ (hfValidate cfg w).error.isSome = true
        ∧ (hfValidate cfg w).models = none) := by
  constructor
  · unfold geminiValidate
    repeat' split
    all_goals first
    | exact Or.inl ⟨rfl, rfl, rfl⟩
    | exact Or.inr ⟨rfl, rfl, rfl⟩
  · unfold hfValidate
    split
    · exact Or.inl ⟨rfl, rfl, rfl⟩
    · exact Or.inr ⟨rfl, rfl, rfl⟩

/-- Claim C8 counterexample: a body that supplies `apiKey` as the empty
string is a subset of the three fields, yet the handler leaves `apiKey`
unchanged (the update is guarded by JavaScript truthiness), diverging from
the claimed update-exactly-the-supplied-fields semantics. -/
theorem c8_admin_config_update_counterexample :
    adminConfigUpdate { apiKey := some "" } cfgW
      ≠ adminConfigUpdateClaimed { apiKey := some "" } cfgW
    ∧ (adminConfigUpdate { apiKey := some "" } cfgW).apiKey = some "key"
    ∧ (adminConfigUpdateClaimed { apiKey := some "" } cfgW).apiKey = some "" := by
  refine ⟨by decide, by decide, by decide⟩

/-- Claim C8 amended: `POST /api/admin/config` overwrites exactly the fields
supplied with a truthy (present and non-empty) value, leaves every other
field unchanged — in particular a field supplied as the empty string is
ignored — and returns the current effective provider name and model. -/
theorem c8_admin_config_truthy_update (ak mo pv : Option String) (c : RuntimeConfig) :
    adminConfigHandler { apiKey := ak, model := mo, provider := pv } c
      = ({ success := true, message := "Configuration updated.",
           currentProvider := if jsTruthyOpt pv then pv.getD c.providerName else c.providerName,
           currentModel := if jsTruthyOpt mo then mo.getD c.model else c.model },
         { providerName := if jsTruthyOpt pv then pv.getD c.providerName else c.providerName,
           apiKey := if jsTruthyOpt ak then ak else c.apiKey,
           model := if jsTruthyOpt mo then mo.getD c.model else c.model }) := by
  unfold adminConfigHandler adminConfigUpdate
  cases hak : jsTruthyOpt ak <;> cases hmo : jsTruthyOpt mo <;> cases hpv : jsTruthyOpt pv <;>
    simp

/-- Blocked-generation behavior of `GeminiProvider.generateTryOn`: an ok
upstream response whose first candidate carries a truthy finishReason other
than "STOP" makes the provider throw the blocked message naming the reason. -/
theorem geminiGenerateTryOn_blocked (cfg : ProviderConfig) (u p : ImagePayload) (w : World)
    (resp : GemHttpResp) (data : GenResult) (cand : GenCandidate) (r : String)
    (htak : jsTruthyOpt cfg.apiKey = true)
    (hg : w.gemini = .ok resp) (hrok : resp.ok = true) (hj : resp.json = .ok data)
    (hcand : data.candidates.head? = some cand)
    (hfr : cand.finishReason = some r) (hr1 : r ≠ "") (hr2 : r ≠ "STOP") :
    geminiGenerateTryOn cfg u p w
      = (.error ("Blocked by Gemini. Reason: " ++ r),
         [geminiGenUrl (jsOrStr cfg.model "gemini-2.5-flash-image")]) := by
  have hfb : finishBlocked cand.finishReason = true := by
    rw [hfr]
    simp [finishBlocked, hr1, hr2]
  unfold geminiGenerateTryOn
  rw [htak]
  simp only [if_true]
  rw [hg]
  simp only []
  rw [hrok]
  simp only [if_true]
  rw [hj]
  simp only []
  rw [hcand]
  simp only []
  rw [hfb]
  simp [hfr]

/-- Upstream JSON used for the safety-block scenario: one candidate with
finishReason "SAFETY". -/
def safetyData : GenResult :=
  { candidates := [{ content := some { parts := [{}] }, finishReason := some "SAFETY" }] }

/-- Product-fetch response used for the safety-block scenario. -/
def prodOkResp : ProductResp :=
  { ok := true, statusText := "OK", base64 := "QUJD", contentType := some "image/jpeg" }

/-- Gemini response used for the safety-block scenario. -/
def gemSafetyResp : GemHttpResp :=
  { ok := true, status := 200, text := "", json := .ok safetyData }

/-- World used for the safety-block scenario: product fetch succeeds and the
Gemini upstream answers ok with first candidate finishReason "SAFETY". -/
def wSafety : World :=
  { productFetch := .ok prodOkResp, gemini := .ok gemSafetyResp }

/-- Claim C2 counterexample: in the factory server, a Gemini response whose
first candidate carries finishReason "SAFETY" makes the provider throw
"Blocked by Gemini. Reason: SAFETY", which the handler catch block maps to
HTTP 500 — not the claimed 400 — though the message does name the reason. -/
theorem c2_safety_block_counterexample :
    (factoryHandler parseFixed cfgW none wSafety
        { userImage := some uiW,
          productImageUrl := some "https://images.unsplash.com/shirt.png" }).1.status = 500
    ∧ ¬ (factoryHandler parseFixed cfgW none wSafety
        { userImage := some uiW,
          productImageUrl := some "https://images.unsplash.com/shirt.png" }).1.status = 400
    ∧ (factoryHandler parseFixed cfgW none wSafety
        { userImage := some uiW,
          productImageUrl := some "https://images.unsplash.com/shirt.png" }).1.error
      = some "Blocked by Gemini. Reason: SAFETY" := by
  refine ⟨by decide, by decide, by decide⟩

/-- Claim C2 amended: for an upstream Gemini response whose first candidate
carries a truthy finishReason other than "STOP", the factory server responds
500 (its catch block only special-cases the quota sentinel) with an error
message mentioning the reason, while the legacy inline server responds 400
with a message mentioning the reason. -/
theorem c2_non_stop_reason_500_factory_400_legacy
    (parse : URLParser) (td : Option String) (cfg : RuntimeConfig) (w : World)
    (ui : ImagePayload) (purl : String) (u : URLParts) (ak : String)
    (presp : ProductResp) (resp : GemHttpResp) (data : GenResult) (cand : GenCandidate)
    (r : String)
    (hpurl : purl ≠ "") (hparse : parse purl = some u)
    (hproto : u.protocol = "http:" ∨ u.protocol = "https:")
    (htr : isTrustedHost td u.hostname = true)
    (hpf : w.productFetch = .ok presp) (hpok : presp.ok = true)
    (hname : jsToLower cfg.providerName = "gemini")
    (hak : cfg.apiKey = some ak) (hak2 : ak ≠ "")
    (hg : w.gemini = .ok resp) (hrok : resp.ok = true) (hj : resp.json = .ok data)
    (hcand : data.candidates.head? = some cand)
    (hfr : cand.finishReason = some r) (hr1 : r ≠ "") (hr2 : r ≠ "STOP")
    (hsent : jsIncludes ("Blocked by Gemini. Reason: " ++ r) "429_QUOTA" = false) :
    (factoryHandler parse cfg td w { userImage := some ui, productImageUrl := some purl }).1
      = { status := 500, error := some ("Blocked by Gemini. Reason: " ++ r) }
    ∧ (legacyHandler parse (some ak) td w
        { userImage := some ui, productImageUrl := some purl }).1
      = { status := 400,
          error := some ("AI Generation Failed. Reason: " ++ r ++ ". Try a different photo.") }
    ∧ jsIncludes ("Blocked by Gemini. Reason: " ++ r) r = true
    ∧ jsIncludes ("AI Generation Failed. Reason: " ++ r ++ ". Try a different photo.") r
        = true := by
  have hck : ssrfCheck parse td purl = true := ssrfCheck_true_of_trusted hparse hproto htr
  have hpb : (purl == "") = false := by simp [hpurl]
  have htak : jsTruthyOpt cfg.apiKey = true := by
    rw [hak]
    simp [jsTruthyOpt, hak2]
  have htak2 : jsTruthyOpt (some ak) = true := by simp [jsTruthyOpt, hak2]
  have hfb : finishBlocked cand.finishReason = true := by
    rw [hfr]
    simp [finishBlocked, hr1, hr2]
  have hfb2 : finishBlocked (some r) = true := by simp [finishBlocked, hr1, hr2]
  have hgen := geminiGenerateTryOn_blocked
    { apiKey := cfg.apiKey, model := some cfg.model } ui
    { data := presp.base64, mimeType := jsOrStr presp.contentType "image/jpeg" } w
    resp data cand r htak hg hrok hj hcand hfr hr1 hr2
  refine ⟨?_, ?_, ?_, ?_⟩
  · unfold factoryHandler factoryAfterGuard
    simp [hpb, hck, hpf, hpok, getProvider, hname, runProvider, hgen, handleError, hsent]
  · unfold legacyHandler legacyAfterGuard
    simp [hpb, hck, hpf, hpok, htak2, hg, hrok, hj, hcand, hfb, hfb2, hfr]
  · exact jsIncludes_append_right _ (jsIncludes_refl r)
  · exact jsIncludes_append_of_left _ (jsIncludes_append_right _ (jsIncludes_refl r))

theorem c2_non_stop_reason_500_factory_400_legacy_witness :
    (wSafety.gemini = .ok gemSafetyResp ∧ gemSafetyResp.ok = true
      ∧ gemSafetyResp.json = .ok safetyData
      ∧ safetyData.candidates.head?
          = some { content := some { parts := [{}] }, finishReason := some "SAFETY" }
      ∧ jsIncludes ("Blocked by Gemini. Reason: " ++ "SAFETY") "429_QUOTA" = false)
    ∧ (factoryHandler parseFixed cfgW none wSafety
        { userImage := some uiW,
          productImageUrl := some "https://images.unsplash.com/shirt.png" }).1
      = { status := 500, error := some ("Blocked by Gemini. Reason: " ++ "SAFETY") }
    ∧ (legacyHandler parseFixed (some "key") none wSafety
        { userImage := some uiW,
          productImageUrl := some "https://images.unsplash.com/shirt.png" }).1
      = { status := 400,
          error := some ("AI Generation Failed. Reason: " ++ "SAFETY"
            ++ ". Try a different photo.") } := by
  have h := c2_non_stop_reason_500_factory_400_legacy parseFixed none cfgW wSafety uiW
    "https://images.unsplash.com/shirt.png"
    { protocol := "https:", hostname := "images.unsplash.com" } "key"
    prodOkResp gemSafetyResp safetyData
    { content := some { parts := [{}] }, finishReason := some "SAFETY" } "SAFETY"
    (by decide) (by decide) (Or.inr rfl) (by decide) rfl rfl (by decide) rfl (by decide)
    rfl rfl rfl rfl rfl (by decide) (by decide) (by decide)
  exact ⟨⟨rfl, rfl, rfl, rfl, by decide⟩, h.1, h.2.1⟩
